import Mathlib

/-!
# DocSim: the hospital simulator of `sim.cpp`

Shallow embedding of the thread bodies `patient`, `receptionist`, `nurse`,
`doctor` and of the start-up part of `main`.

* Every POSIX semaphore is a natural number; `sem_wait` is enabled only when
  the value is positive and decrements it, `sem_post` increments it.
* Every shared-memory statement of a thread body (semaphore operation, queue
  operation, `cout` line, write to `assignedOffice`) is one atomic step; a
  run is an arbitrary interleaving of such steps (`step`, `run`, `Reachable`).
* The fixed-size global tables (`officeQueues[3]`, the five `sem_t *xs[3]`
  arrays, `assignedOffice[15]`) are lists of exactly that length.  An access
  outside a table, `front()`/`pop()` on an empty queue, and constructing
  `uniform_int_distribution<>(0, docNum - 1)` with `docNum - 1 < 0` are
  undefined behaviour in C++: the model records them in the `fault` flag and
  the run stops there.
* The receptionist, the patients and the doctors exist from the initial state
  (`main` creates them without waiting for any of them); nurse `i` exists
  once doctor `i` has executed its `pthread_create` (line 274).  The random
  draw of line 174 is a scheduling choice: any value of `[0, docNum - 1]`.
-/

namespace DocSim

/-! ## Narration lines -/

/-- Lines written to `cout` by the threads (source line in brackets). -/
inductive Line where
  /-- "Patient p enters waiting room, waits for receptionist" [101] -/
  | patientEntersWaitingRoom (p : Nat)
  /-- "Receptionist registers patient p" [179] -/
  | receptionistRegisters (p : Nat)
  /-- "Patient p leaves receptionist and sits in waiting room" [110] -/
  | patientLeavesReceptionist (p : Nat)
  /-- "Nurse n takes patient p to doctor's office" [231] -/
  | nurseTakes (n : Nat) (p : Nat)
  /-- "Patient p enters doctor d's office" [122] -/
  | patientEntersOffice (p : Nat) (d : Nat)
  /-- "Doctor d listens to symptoms from patient p" [286] -/
  | doctorListens (d : Nat) (p : Nat)
  /-- "Patient p receives advice from doctor d" [131] -/
  | patientReceivesAdvice (p : Nat) (d : Nat)
  /-- "Patient p leaves" [136] -/
  | patientLeaves (p : Nat)
  deriving DecidableEq, Repr

/-! ## Program counters (each names the statement executed next) -/

/-- Program counter of a `patient` thread, lines 91-147. -/
inductive PatientPc where
  /-- `sem_wait(capacitySem)` [94] -/
  | waitCapacity
  /-- `sem_wait(recepSem)` [98] -/
  | waitRecep
  /-- `recepQueue.push(patientId)` [99] -/
  | pushRecepQueue
  /-- `sem_wait(printSem)` [100] -/
  | waitPrint1
  /-- `cout` "enters waiting room" [101] -/
  | printEntersWaitingRoom
  /-- `sem_post(printSem)` [102] -/
  | postPrint1
  /-- `sem_post(pwrSem)` [105] -/
  | postPwr
  /-- `sem_wait(registerSem)` [108] -/
  | waitRegister
  /-- `sem_wait(printSem)` [109] -/
  | waitPrint2
  /-- `cout` "leaves receptionist" [110] -/
  | printLeavesReceptionist
  /-- `sem_post(printSem)` [111] -/
  | postPrint2
  /-- `sem_post(wrSem)` [114] -/
  | postWr
  /-- `sem_post(recepSem)` [117] -/
  | postRecep
  /-- `sem_wait(nurseSems[assignedOffice[patientId]])` [120] -/
  | waitNurse
  /-- `sem_wait(printSem)` [121] -/
  | waitPrint3
  /-- `cout` "enters doctor d's office" [122] -/
  | printEntersOffice
  /-- `sem_post(printSem)` [123] -/
  | postPrint3
  /-- `sem_post(enterSem)` [126] -/
  | postEnter
  /-- `sem_wait(assesmentSems[assignedOffice[patientId]])` [129] -/
  | waitAssesment
  /-- `sem_wait(printSem)` [130] -/
  | waitPrint4
  /-- `cout` "receives advice" [131] -/
  | printReceivesAdvice
  /-- `sem_post(printSem)` [132] -/
  | postPrint4
  /-- `sem_wait(printSem)` [135] -/
  | waitPrint5
  /-- `cout` "leaves" [136] -/
  | printLeaves
  /-- `sem_post(printSem)` [137] -/
  | postPrint5
  /-- `sem_post(officeSems[assignedOffice[patientId]])` [141] -/
  | postOffice
  /-- `sem_post(capacitySem)` [144] -/
  | postCapacity
  /-- `return arg` [146] -/
  | done
  deriving DecidableEq, Repr

/-- Program counter of the `receptionist` thread, lines 158-208. -/
inductive RecepPc where
  /-- `recepNum = patientNum` and the random distribution [160-166] -/
  | start
  /-- `sem_wait(pwrSem)` [171] -/
  | waitPwr
  /-- `ranOffice = dis(gen)` [174] -/
  | draw
  /-- `patientId = recepQueue.front()` [177] -/
  | readFront
  /-- `sem_wait(printSem)` [178] -/
  | waitPrint
  /-- `cout` "registers patient" [179] -/
  | print
  /-- `sem_post(printSem)` [180] -/
  | postPrint
  /-- `recepQueue.pop()` [181] -/
  | popRecepQueue
  /-- `assignedOffice[patientId] = ranOffice` [184] -/
  | assign
  /-- `officeQueues[ranOffice].push(patientId)` [187] -/
  | pushOfficeQueue
  /-- `sem_post(registerSem)` [190] -/
  | postRegister
  /-- `sem_wait(wrSem)` [193] -/
  | waitWr
  /-- `sem_post(patientSems[ranOffice])` [196] -/
  | postPatient
  /-- `if (--recepNum == 0) break` [199] -/
  | decrement
  /-- `return arg` [207] -/
  | done
  deriving DecidableEq, Repr

/-- Program counter of a `nurse` thread, lines 219-255. -/
inductive NursePc where
  /-- `sem_wait(patientSems[nurseId])` [227] -/
  | waitPatient
  /-- `sem_wait(printSem)` [230] -/
  | waitPrint
  /-- `cout` "takes patient" with `officeQueues[nurseId].front()` [231] -/
  | print
  /-- `sem_post(printSem)` [232] -/
  | postPrint
  /-- `sem_post(nurseSems[nurseId])` [235] -/
  | postNurse
  /-- `sem_wait(enterSem)` [238] -/
  | waitEnter
  /-- `sem_post(officeSems[nurseId])` [241] -/
  | postOffice
  /-- `sem_wait(docSems[nurseId])` [245] -/
  | waitDoc
  /-- `if (--nurseNum == 0) break` [248] -/
  | decrement
  /-- `return arg` [254] -/
  | done
  deriving DecidableEq, Repr

/-- Program counter of a `doctor` thread, lines 266-312. -/
inductive DoctorPc where
  /-- `docNum = patientNum` and `pthread_create(.., nurse, &doctorId)` [268-274] -/
  | spawnNurse
  /-- `sem_wait(officeSems[doctorId])` [279] -/
  | waitOffice1
  /-- `patient = officeQueues[doctorId].front()` [282] -/
  | readFront
  /-- `sem_wait(printSem)` [285] -/
  | waitPrint
  /-- `cout` "listens to symptoms" [286] -/
  | print
  /-- `sem_post(printSem)` [287] -/
  | postPrint
  /-- `sem_post(assesmentSems[doctorId])` [290] -/
  | postAssesment
  /-- `officeQueues[doctorId].pop()` [293] -/
  | popOfficeQueue
  /-- `sem_wait(officeSems[doctorId])` [296] -/
  | waitOffice2
  /-- `sem_post(docSems[doctorId])` [299] -/
  | postDoc
  /-- `if (--docNum == 0) break` [302] -/
  | decrement
  /-- `return arg` [311] -/
  | done
  deriving DecidableEq, Repr

/-! ## Thread-local and global state -/

/-- Locals of `receptionist`: `recepNum`, `ranOffice`, `patientId`. -/
structure RecepState where
  pc : RecepPc
  recepNum : Int
  ranOffice : Nat
  patientId : Nat
  deriving DecidableEq, Repr

/-- Locals of `nurse`: `nurseNum` (`nurseId` is the position in `State.nurses`). -/
structure NurseState where
  pc : NursePc
  nurseNum : Int
  deriving DecidableEq, Repr

/-- Locals of `doctor`: the local `docNum` counter (it shadows the global) and
`patient` (`doctorId` is the position in `State.doctors`). -/
structure DoctorState where
  pc : DoctorPc
  docNum : Int
  patient : Nat
  deriving DecidableEq, Repr

/-- Globals of `sim.cpp` (lines 57-80), the thread table, and the `cout` log. -/
structure State where
  /-- `int docNum` [57] -/
  docNum : Int
  /-- `int patientNum` [58] -/
  patientNum : Int
  /-- `queue<int> recepQueue` [60] -/
  recepQueue : List Nat
  /-- `queue<int> officeQueues[3]` [61] -/
  officeQueues : List (List Nat)
  /-- `int assignedOffice[15]` [63] -/
  assignedOffice : List Nat
  capacitySem : Nat
  printSem : Nat
  pwrSem : Nat
  recepSem : Nat
  registerSem : Nat
  wrSem : Nat
  enterSem : Nat
  /-- `sem_t *docSems[3]` [76] -/
  docSems : List Nat
  /-- `sem_t *nurseSems[3]` [77] -/
  nurseSems : List Nat
  /-- `sem_t *officeSems[3]` [78] -/
  officeSems : List Nat
  /-- `sem_t *patientSems[3]` [79] -/
  patientSems : List Nat
  /-- `sem_t *assesmentSems[3]` [80] -/
  assesmentSems : List Nat
  /-- Patient threads, position = `patientId` -/
  patients : List PatientPc
  receptionist : RecepState
  /-- Doctor threads, position = `doctorId` -/
  doctors : List DoctorState
  /-- Nurse threads, position = `nurseId`; `none` until the doctor spawns it -/
  nurses : List (Option NurseState)
  /-- Lines written to `cout`, oldest first -/
  out : List Line
  /-- Set once undefined behaviour has been executed -/
  fault : Bool
  deriving DecidableEq, Repr

/-- Length of the station-indexed global tables (lines 61, 76-80). -/
def tableSize : Nat := 3

/-- Length of `assignedOffice` (line 63). -/
def assignedOfficeSize : Nat := 15

/-- Initial value of `capacitySem` (line 419). -/
def capacity : Nat := 15

/-- The globals as `main` leaves them at line 514, with every thread that
`main` creates for the parsed counts at its first statement. -/
def initState (docNum patientNum : Int) : State where
  docNum := docNum
  patientNum := patientNum
  recepQueue := []
  officeQueues := List.replicate tableSize []
  assignedOffice := List.replicate assignedOfficeSize 0
  capacitySem := capacity
  printSem := 1
  pwrSem := 0
  recepSem := 1
  registerSem := 0
  wrSem := 0
  enterSem := 0
  docSems := List.replicate tableSize 1
  nurseSems := List.replicate tableSize 0
  officeSems := List.replicate tableSize 0
  patientSems := List.replicate tableSize 0
  assesmentSems := List.replicate tableSize 0
  patients := List.replicate patientNum.toNat PatientPc.waitCapacity
  receptionist := { pc := RecepPc.start, recepNum := 0, ranOffice := 0, patientId := 0 }
  doctors := List.replicate docNum.toNat { pc := DoctorPc.spawnNurse, docNum := 0, patient := 0 }
  nurses := List.replicate docNum.toNat none
  out := []
  fault := false

/-- The state after executing undefined behaviour. -/
def State.raise (s : State) : State := { s with fault := true }

/-- Move patient `id` to program counter `pc`. -/
def State.gotoPatient (s : State) (id : Nat) (pc : PatientPc) : State :=
  { s with patients := s.patients.set id pc }

/-- Move the receptionist to program counter `pc`. -/
def State.gotoRecep (s : State) (pc : RecepPc) : State :=
  { s with receptionist := { s.receptionist with pc := pc } }

/-- Move nurse `i` (locals `n`) to program counter `pc`. -/
def State.gotoNurse (s : State) (i : Nat) (n : NurseState) (pc : NursePc) : State :=
  { s with nurses := s.nurses.set i (some { n with pc := pc }) }

/-- Move doctor `i` (locals `d`) to program counter `pc`. -/
def State.gotoDoctor (s : State) (i : Nat) (d : DoctorState) (pc : DoctorPc) : State :=
  { s with doctors := s.doctors.set i { d with pc := pc } }

/-- Append a line to `cout`. -/
def State.print (s : State) (l : Line) : State := { s with out := s.out ++ [l] }

/-! ## Thread bodies -/

/-- One statement of `patient` (lines 91-147) for the thread with `patientId = id`.
`none`: the thread does not exist, has returned, or is blocked in `sem_wait`. -/
def patient (s : State) (id : Nat) : Option State :=
  match s.patients[id]? with
  | none => none
  | some pc =>
    match pc with
    | .waitCapacity =>
      if 0 < s.capacitySem then
        some ({ s with capacitySem := s.capacitySem - 1 }.gotoPatient id .waitRecep)
      else none
    | .waitRecep =>
      if 0 < s.recepSem then
        some ({ s with recepSem := s.recepSem - 1 }.gotoPatient id .pushRecepQueue)
      else none
    | .pushRecepQueue =>
      some ({ s with recepQueue := s.recepQueue ++ [id] }.gotoPatient id .waitPrint1)
    | .waitPrint1 =>
      if 0 < s.printSem then
        some ({ s with printSem := s.printSem - 1 }.gotoPatient id .printEntersWaitingRoom)
      else none
    | .printEntersWaitingRoom =>
      some ((s.print (.patientEntersWaitingRoom id)).gotoPatient id .postPrint1)
    | .postPrint1 =>
      some ({ s with printSem := s.printSem + 1 }.gotoPatient id .postPwr)
    | .postPwr =>
      some ({ s with pwrSem := s.pwrSem + 1 }.gotoPatient id .waitRegister)
    | .waitRegister =>
      if 0 < s.registerSem then
        some ({ s with registerSem := s.registerSem - 1 }.gotoPatient id .waitPrint2)
      else none
    | .waitPrint2 =>
      if 0 < s.printSem then
        some ({ s with printSem := s.printSem - 1 }.gotoPatient id .printLeavesReceptionist)
      else none
    | .printLeavesReceptionist =>
      some ((s.print (.patientLeavesReceptionist id)).gotoPatient id .postPrint2)
    | .postPrint2 =>
      some ({ s with printSem := s.printSem + 1 }.gotoPatient id .postWr)
    | .postWr =>
      some ({ s with wrSem := s.wrSem + 1 }.gotoPatient id .postRecep)
    | .postRecep =>
      some ({ s with recepSem := s.recepSem + 1 }.gotoPatient id .waitNurse)
    | .waitNurse =>
      match s.assignedOffice[id]? with
      | none => some s.raise
      | some office =>
        match s.nurseSems[office]? with
        | none => some s.raise
        | some v =>
          if 0 < v then
            some ({ s with nurseSems := s.nurseSems.set office (v - 1) }.gotoPatient id .waitPrint3)
          else none
    | .waitPrint3 =>
      if 0 < s.printSem then
        some ({ s with printSem := s.printSem - 1 }.gotoPatient id .printEntersOffice)
      else none
    | .printEntersOffice =>
      match s.assignedOffice[id]? with
      | none => some s.raise
      | some office =>
        some ((s.print (.patientEntersOffice id office)).gotoPatient id .postPrint3)
    | .postPrint3 =>
      some ({ s with printSem := s.printSem + 1 }.gotoPatient id .postEnter)
    | .postEnter =>
      some ({ s with enterSem := s.enterSem + 1 }.gotoPatient id .waitAssesment)
    | .waitAssesment =>
      match s.assignedOffice[id]? with
      | none => some s.raise
      | some office =>
        match s.assesmentSems[office]? with
        | none => some s.raise
        | some v =>
          if 0 < v then
            some ({ s with assesmentSems := s.assesmentSems.set office (v - 1) }.gotoPatient id
              .waitPrint4)
          else none
    | .waitPrint4 =>
      if 0 < s.printSem then
        some ({ s with printSem := s.printSem - 1 }.gotoPatient id .printReceivesAdvice)
      else none
    | .printReceivesAdvice =>
      match s.assignedOffice[id]? with
      | none => some s.raise
      | some office =>
        some ((s.print (.patientReceivesAdvice id office)).gotoPatient id .postPrint4)
    | .postPrint4 =>
      some ({ s with printSem := s.printSem + 1 }.gotoPatient id .waitPrint5)
    | .waitPrint5 =>
      if 0 < s.printSem then
        some ({ s with printSem := s.printSem - 1 }.gotoPatient id .printLeaves)
      else none
    | .printLeaves =>
      some ((s.print (.patientLeaves id)).gotoPatient id .postPrint5)
    | .postPrint5 =>
      some ({ s with printSem := s.printSem + 1 }.gotoPatient id .postOffice)
    | .postOffice =>
      match s.assignedOffice[id]? with
      | none => some s.raise
      | some office =>
        match s.officeSems[office]? with
        | none => some s.raise
        | some v =>
          some ({ s with officeSems := s.officeSems.set office (v + 1) }.gotoPatient id
            .postCapacity)
    | .postCapacity =>
      some ({ s with capacitySem := s.capacitySem + 1 }.gotoPatient id .done)
    | .done => none

/-- One statement of `receptionist` (lines 158-208) other than the random
draw of line 174. -/
def receptionist (s : State) : Option State :=
  let r := s.receptionist
  match r.pc with
  | .start =>
    if s.docNum - 1 < 0 then some s.raise
    else some { s with receptionist := { r with pc := .waitPwr, recepNum := s.patientNum } }
  | .waitPwr =>
    if 0 < s.pwrSem then some ({ s with pwrSem := s.pwrSem - 1 }.gotoRecep .draw) else none
  | .draw => none
  | .readFront =>
    match s.recepQueue with
    | [] => some s.raise
    | p :: _ => some { s with receptionist := { r with pc := .waitPrint, patientId := p } }
  | .waitPrint =>
    if 0 < s.printSem then some ({ s with printSem := s.printSem - 1 }.gotoRecep .print) else none
  | .print => some ((s.print (.receptionistRegisters r.patientId)).gotoRecep .postPrint)
  | .postPrint => some ({ s with printSem := s.printSem + 1 }.gotoRecep .popRecepQueue)
  | .popRecepQueue =>
    match s.recepQueue with
    | [] => some s.raise
    | _ :: rest => some ({ s with recepQueue := rest }.gotoRecep .assign)
  | .assign =>
    if r.patientId < s.assignedOffice.length then
      some ({ s with assignedOffice := s.assignedOffice.set r.patientId r.ranOffice }.gotoRecep
        .pushOfficeQueue)
    else some s.raise
  | .pushOfficeQueue =>
    match s.officeQueues[r.ranOffice]? with
    | none => some s.raise
    | some q =>
      some ({ s with officeQueues := s.officeQueues.set r.ranOffice (q ++ [r.patientId]) }.gotoRecep
        .postRegister)
  | .postRegister => some ({ s with registerSem := s.registerSem + 1 }.gotoRecep .waitWr)
  | .waitWr =>
    if 0 < s.wrSem then some ({ s with wrSem := s.wrSem - 1 }.gotoRecep .postPatient) else none
  | .postPatient =>
    match s.patientSems[r.ranOffice]? with
    | none => some s.raise
    | some v =>
      some ({ s with patientSems := s.patientSems.set r.ranOffice (v + 1) }.gotoRecep .decrement)
  | .decrement =>
    if r.recepNum - 1 = 0 then
      some { s with receptionist := { r with pc := .done, recepNum := r.recepNum - 1 } }
    else some { s with receptionist := { r with pc := .waitPwr, recepNum := r.recepNum - 1 } }
  | .done => none

/-- Line 174, `ranOffice = dis(gen)`: the draw returns `office`, any value of
the closed range `[0, docNum - 1]` of the distribution built at line 166. -/
def receptionistDraw (s : State) (office : Nat) : Option State :=
  match s.receptionist.pc with
  | .draw =>
    if (office : Int) ≤ s.docNum - 1 then
      some { s with receptionist := { s.receptionist with pc := .readFront, ranOffice := office } }
    else none
  | _ => none

/-- One statement of `nurse` (lines 219-255) for the thread with `nurseId = i`. -/
def nurse (s : State) (i : Nat) : Option State :=
  match s.nurses[i]? with
  | none => none
  | some none => none
  | some (some n) =>
    match n.pc with
    | .waitPatient =>
      match s.patientSems[i]? with
      | none => some s.raise
      | some v =>
        if 0 < v then
          some ({ s with patientSems := s.patientSems.set i (v - 1) }.gotoNurse i n .waitPrint)
        else none
    | .waitPrint =>
      if 0 < s.printSem then
        some ({ s with printSem := s.printSem - 1 }.gotoNurse i n .print)
      else none
    | .print =>
      match s.officeQueues[i]? with
      | none => some s.raise
      | some [] => some s.raise
      | some (p :: _) => some ((s.print (.nurseTakes i p)).gotoNurse i n .postPrint)
    | .postPrint => some ({ s with printSem := s.printSem + 1 }.gotoNurse i n .postNurse)
    | .postNurse =>
      match s.nurseSems[i]? with
      | none => some s.raise
      | some v =>
        some ({ s with nurseSems := s.nurseSems.set i (v + 1) }.gotoNurse i n .waitEnter)
    | .waitEnter =>
      if 0 < s.enterSem then
        some ({ s with enterSem := s.enterSem - 1 }.gotoNurse i n .postOffice)
      else none
    | .postOffice =>
      match s.officeSems[i]? with
      | none => some s.raise
      | some v =>
        some ({ s with officeSems := s.officeSems.set i (v + 1) }.gotoNurse i n .waitDoc)
    | .waitDoc =>
      match s.docSems[i]? with
      | none => some s.raise
      | some v =>
        if 0 < v then
          some ({ s with docSems := s.docSems.set i (v - 1) }.gotoNurse i n .decrement)
        else none
    | .decrement =>
      if n.nurseNum - 1 = 0 then
        some { s with nurses := s.nurses.set i (some { pc := .done, nurseNum := n.nurseNum - 1 }) }
      else
        some { s with
          nurses := s.nurses.set i (some { pc := .waitPatient, nurseNum := n.nurseNum - 1 }) }
    | .done => none

/-- One statement of `doctor` (lines 266-312) for the thread with `doctorId = i`. -/
def doctor (s : State) (i : Nat) : Option State :=
  match s.doctors[i]? with
  | none => none
  | some d =>
    match d.pc with
    | .spawnNurse =>
      some { s with
        doctors := s.doctors.set i { d with pc := .waitOffice1, docNum := s.patientNum }
        nurses := s.nurses.set i (some { pc := .waitPatient, nurseNum := s.patientNum }) }
    | .waitOffice1 =>
      match s.officeSems[i]? with
      | none => some s.raise
      | some v =>
        if 0 < v then
          some ({ s with officeSems := s.officeSems.set i (v - 1) }.gotoDoctor i d .readFront)
        else none
    | .readFront =>
      match s.officeQueues[i]? with
      | none => some s.raise
      | some [] => some s.raise
      | some (p :: _) =>
        some { s with doctors := s.doctors.set i { d with pc := .waitPrint, patient := p } }
    | .waitPrint =>
      if 0 < s.printSem then
        some ({ s with printSem := s.printSem - 1 }.gotoDoctor i d .print)
      else none
    | .print => some ((s.print (.doctorListens i d.patient)).gotoDoctor i d .postPrint)
    | .postPrint => some ({ s with printSem := s.printSem + 1 }.gotoDoctor i d .postAssesment)
    | .postAssesment =>
      match s.assesmentSems[i]? with
      | none => some s.raise
      | some v =>
        some ({ s with assesmentSems := s.assesmentSems.set i (v + 1) }.gotoDoctor i d
          .popOfficeQueue)
    | .popOfficeQueue =>
      match s.officeQueues[i]? with
      | none => some s.raise
      | some [] => some s.raise
      | some (_ :: rest) =>
        some ({ s with officeQueues := s.officeQueues.set i rest }.gotoDoctor i d .waitOffice2)
    | .waitOffice2 =>
      match s.officeSems[i]? with
      | none => some s.raise
      | some v =>
        if 0 < v then
          some ({ s with officeSems := s.officeSems.set i (v - 1) }.gotoDoctor i d .postDoc)
        else none
    | .postDoc =>
      match s.docSems[i]? with
      | none => some s.raise
      | some v =>
        some ({ s with docSems := s.docSems.set i (v + 1) }.gotoDoctor i d .decrement)
    | .decrement =>
      if d.docNum - 1 = 0 then
        some { s with doctors := s.doctors.set i { d with pc := .done, docNum := d.docNum - 1 } }
      else
        some { s with
          doctors := s.doctors.set i { d with pc := .waitOffice1, docNum := d.docNum - 1 } }
    | .done => none

/-! ## Interleaving semantics -/

/-- A scheduling choice: which thread executes its next statement (and, for
the receptionist at line 174, which office the random draw returns). -/
inductive Act where
  | patient (id : Nat)
  | receptionist
  | draw (office : Nat)
  | nurse (i : Nat)
  | doctor (i : Nat)
  deriving DecidableEq, Repr

/-- One atomic step of the whole program; `none` when the chosen thread cannot
move or the run has already executed undefined behaviour. -/
def step (s : State) (a : Act) : Option State :=
  if s.fault then none
  else
    match a with
    | .patient id => patient s id
    | .receptionist => receptionist s
    | .draw office => receptionistDraw s office
    | .nurse i => nurse s i
    | .doctor i => doctor s i

/-- Execute a schedule; `none` if some choice of the schedule is not enabled. -/
def run (s : State) : List Act → Option State
  | [] => some s
  | a :: rest =>
    match step s a with
    | none => none
    | some t => run t rest

/-- States reachable from `s0` by some interleaving. -/
inductive Reachable (s0 : State) : State → Prop where
  | refl : Reachable s0 s0
  | tail {s t : State} (a : Act) : Reachable s0 s → step s a = some t → Reachable s0 t

/-- Every scheduling choice that can be enabled in `s`: one per thread, and
one per value of the distribution's range for the random draw. -/
def allActs (s : State) : List Act :=
  (List.range s.patients.length).map Act.patient ++ [Act.receptionist] ++
    (List.range s.docNum.toNat).map Act.draw ++ (List.range s.nurses.length).map Act.nurse ++
    (List.range s.doctors.length).map Act.doctor

/-- No thread can execute a statement in `s`. -/
def terminal (s : State) : Bool := (allActs s).all fun a => (step s a).isNone

/-- The schedule `sched` is executable from `s0` and ends in a state satisfying `P`. -/
def runCheck (s0 : State) (sched : List Act) (P : State → Bool) : Bool :=
  match run s0 sched with
  | some s => P s
  | none => false

/-- The statement `a`, `n` times in a row. -/
def rep (n : Nat) (a : Act) : List Act := List.replicate n a

/-! ## Observations used by the claims -/

/-- Patient program counters between having passed `sem_wait(nurseSems[..])`
(line 120) and executing the departure `sem_post(officeSems[..])` (line 141). -/
def PatientPc.insideOffice : PatientPc → Bool
  | .waitPrint3 | .printEntersOffice | .postPrint3 | .postEnter | .waitAssesment | .waitPrint4
  | .printReceivesAdvice | .postPrint4 | .waitPrint5 | .printLeaves | .postPrint5
  | .postOffice => true
  | _ => false

/-- Patient `p` is assigned to office `i` and is inside it. -/
def inOffice (s : State) (i p : Nat) : Bool :=
  s.assignedOffice[p]? == some i && (s.patients[p]?.map PatientPc.insideOffice == some true)

/-- Number of patients inside office `i`. -/
def officeOccupancy (s : State) (i : Nat) : Nat :=
  ((List.range s.patients.length).filter (inOffice s i)).length

/-- Ids announced by nurse `i` (read at `officeQueues[i].front()`, line 231), in order. -/
def nurseReads (s : State) (i : Nat) : List Nat :=
  s.out.filterMap fun l =>
    match l with
    | .nurseTakes n p => if n = i then some p else none
    | _ => none

/-- Ids read by doctor `i` at `officeQueues[i].front()` (line 282, printed at 286), in order. -/
def doctorReads (s : State) (i : Nat) : List Nat :=
  s.out.filterMap fun l =>
    match l with
    | .doctorListens d p => if d = i then some p else none
    | _ => none

/-- Ids of the patients that printed "enters doctor i's office" (line 122), in order. -/
def officeEntries (s : State) (i : Nat) : List Nat :=
  s.out.filterMap fun l =>
    match l with
    | .patientEntersOffice p d => if d = i then some p else none
    | _ => none

/-- Registration of patients 0 and 1, in this order, the receptionist drawing
office `o0` for patient 0 and `o1` for patient 1; afterwards the receptionist
has returned and both patients wait at line 120. -/
def schedRegisterTwo (o0 o1 : Nat) : List Act :=
  rep 1 .receptionist ++ rep 7 (.patient 0) ++ rep 1 .receptionist ++ rep 1 (.draw o0) ++
    rep 8 .receptionist ++ rep 6 (.patient 0) ++ rep 3 .receptionist ++ rep 7 (.patient 1) ++
    rep 1 .receptionist ++ rep 1 (.draw o1) ++ rep 8 .receptionist ++ rep 6 (.patient 1) ++
    rep 3 .receptionist

/-- One station, two patients: the nurse finishes its first cycle on the
initial token of `docSems[0]` and escorts patient 1 while patient 0 is still
waiting for the doctor. -/
def schedTwoInOffice : List Act :=
  schedRegisterTwo 0 0 ++ rep 1 (.doctor 0) ++ rep 5 (.nurse 0) ++ rep 5 (.patient 0) ++
    rep 9 (.nurse 0) ++ rep 5 (.patient 1)

/-- Two stations, patient 0 at station 0 and patient 1 at station 1, every
thread run until it cannot move any more. -/
def schedSplit : List Act :=
  schedRegisterTwo 0 1 ++ rep 1 (.doctor 0) ++ rep 1 (.doctor 1) ++ rep 5 (.nurse 0) ++
    rep 5 (.nurse 1) ++ rep 5 (.patient 0) ++ rep 5 (.patient 1) ++ rep 4 (.nurse 0) ++
    rep 4 (.nurse 1) ++ rep 7 (.doctor 0) ++ rep 7 (.doctor 1) ++ rep 9 (.patient 0) ++
    rep 9 (.patient 1) ++ rep 3 (.doctor 0) ++ rep 3 (.doctor 1)

/-- Two stations: both nurses wait on the global `enterSem`; patient 1 enters
office 1, nurse 0 takes that token and doctor 0 starts on patient 0. -/
def schedStolenEntry : List Act :=
  schedRegisterTwo 0 1 ++ rep 1 (.doctor 0) ++ rep 1 (.doctor 1) ++ rep 5 (.nurse 0) ++
    rep 5 (.nurse 1) ++ rep 5 (.patient 1) ++ rep 4 (.nurse 0) ++ rep 7 (.doctor 0)

/-- One station: patients 0 and 1 both wait on `nurseSems[0]`; the nurse
announces patient 0 and patient 1 takes the token. -/
def schedOvertake : List Act :=
  schedRegisterTwo 0 0 ++ rep 1 (.doctor 0) ++ rep 5 (.nurse 0) ++ rep 5 (.patient 1) ++
    rep 2 (.nurse 0) ++ rep 7 (.doctor 0) ++ rep 4 (.patient 1)

/-- Four stations: doctor 3 reaches `sem_wait(officeSems[3])`. -/
def schedDoctorThree : List Act := rep 2 (.doctor 3)

/-- Four stations: the receptionist draws office 3 for patient 0. -/
def schedDrawThree : List Act :=
  rep 1 .receptionist ++ rep 7 (.patient 0) ++ rep 1 .receptionist ++ rep 1 (.draw 3) ++
    rep 7 .receptionist

/-- Sixteen patients: patient 15 is the first to reach the desk and the
receptionist executes `assignedOffice[15] = ranOffice`. -/
def schedPatientFifteen : List Act :=
  rep 1 .receptionist ++ rep 7 (.patient 15) ++ rep 1 .receptionist ++ rep 1 (.draw 0) ++
    rep 6 .receptionist

/-- The run `schedTwoInOffice` continued until every thread has returned. -/
def schedNurseRepeats : List Act :=
  schedTwoInOffice ++ rep 7 (.doctor 0) ++ rep 9 (.patient 0) ++ rep 2 (.nurse 0) ++
    rep 10 (.doctor 0) ++ rep 9 (.patient 1) ++ rep 2 (.nurse 0) ++ rep 3 (.doctor 0)

/-! ## Exhaustive exploration of a finite instance -/

/-- Successor states of `s`, one per enabled scheduling choice. -/
def succs (s : State) : List State := (allActs s).filterMap (step s)

/-- Add the states of the second list that are not yet in `acc`. -/
def addNew (acc : List State) : List State → List State
  | [] => acc
  | t :: ts => if acc.contains t then addNew acc ts else addNew (t :: acc) ts

/-- All successors of the states of a layer, without repetition. -/
def nextLayer : List State → List State
  | [] => []
  | s :: ss => addNew (nextLayer ss) (succs s)

/-- Every state reachable from the layer `l` satisfies `P`, and no run from
`l` has `n` or more steps. -/
def exploreAll (P : State → Bool) : Nat → List State → Bool
  | 0, l => l.isEmpty
  | n + 1, l => l.all P && exploreAll P n (nextLayer l)

/-- Every thread has returned. -/
def allReturned (s : State) : Bool :=
  s.patients.all (fun pc => pc == .done) && s.receptionist.pc == .done &&
    s.doctors.all (fun d => d.pc == .done) &&
    s.nurses.all (fun n => n.map (fun x => x.pc) == some .done)

/-- The narration of the scenario with one station and one patient. -/
def narrationOneOne : List Line :=
  [.patientEntersWaitingRoom 0, .receptionistRegisters 0, .patientLeavesReceptionist 0,
   .nurseTakes 0 0, .patientEntersOffice 0 0, .doctorListens 0 0, .patientReceivesAdvice 0 0,
   .patientLeaves 0]

/-- What the scenario with one station and one patient requires of a state:
no undefined behaviour, the lines written so far are an initial segment of
`narrationOneOne`, the office drawn by the receptionist is 0 and no id is in
the queue of another office, and if no thread can move then every thread has
returned, the whole narration has been written, `capacitySem` is back at 15
and the slot of patient 0 in `assignedOffice` holds 0. -/
def scenarioOneOneOk (s : State) : Bool :=
  !s.fault && s.out == narrationOneOne.take s.out.length &&
    s.receptionist.ranOffice == 0 && s.officeQueues.drop 1 == [[], []] &&
    (!terminal s ||
      (allReturned s && s.out == narrationOneOne && s.capacitySem == capacity &&
        s.assignedOffice[0]? == some 0))

/-- A complete run of the scenario with one station and one patient. -/
def schedOneOne : List Act :=
  rep 1 .receptionist ++ rep 7 (.patient 0) ++ rep 1 .receptionist ++ rep 1 (.draw 0) ++
    rep 8 .receptionist ++ rep 6 (.patient 0) ++ rep 3 .receptionist ++ rep 1 (.doctor 0) ++
    rep 5 (.nurse 0) ++ rep 5 (.patient 0) ++ rep 4 (.nurse 0) ++ rep 7 (.doctor 0) ++
    rep 9 (.patient 0) ++ rep 3 (.doctor 0)

/-- The state in which `schedOneOne` ends. -/
def finalOneOne : State :=
  { initState 1 1 with
    patients := [.done]
    receptionist := { pc := .done, recepNum := 0, ranOffice := 0, patientId := 0 }
    doctors := [{ pc := .done, docNum := 0, patient := 0 }]
    nurses := [some { pc := .done, nurseNum := 0 }]
    out := narrationOneOne }

/-! ## Start-up part of `main` (lines 358-547) -/

/-- Patient program counters between having completed `sem_wait(capacitySem)`
(line 94) and executing `sem_post(capacitySem)` (line 144). -/
def PatientPc.admitted : PatientPc → Bool
  | .waitCapacity => false
  | .done => false
  | _ => true

/-- Number of patient threads currently holding a unit of `capacitySem`. -/
def occupancy (s : State) : Nat := s.patients.countP PatientPc.admitted

/-- The globals that only patients and the receptionist touch. -/
structure DeskView where
  patients : List PatientPc
  receptionist : RecepState
  recepQueue : List Nat
  assignedOffice : List Nat
  capacitySem : Nat
  pwrSem : Nat
  recepSem : Nat
  registerSem : Nat
  wrSem : Nat

/-- Projection of a state on `DeskView`. -/
def State.desk (s : State) : DeskView :=
  { patients := s.patients, receptionist := s.receptionist, recepQueue := s.recepQueue,
    assignedOffice := s.assignedOffice, capacitySem := s.capacitySem, pwrSem := s.pwrSem,
    recepSem := s.recepSem, registerSem := s.registerSem, wrSem := s.wrSem }

/-! ## Desk protocol -/

end DocSim

namespace DocSim

/-! ## Runs and reachability -/

theorem Reachable.trans {a b c : State} (hab : Reachable a b) (hbc : Reachable b c) :
    Reachable a c := by
  induction hbc with
  | refl => exact hab
  | tail act _ hstep ih => exact Reachable.tail act ih hstep

theorem Reachable.head {s t u : State} (a : Act) (hstep : step s a = some t)
    (htu : Reachable t u) : Reachable s u :=
  Reachable.trans (Reachable.tail a Reachable.refl hstep) htu

theorem reachable_of_run {sched : List Act} {s t : State} (h : run s sched = some t) :
    Reachable s t := by
  induction sched generalizing s with
  | nil =>
    simp only [run, Option.some.injEq] at h
    subst h
    exact Reachable.refl
  | cons a rest ih =>
    simp only [run] at h
    cases hstep : step s a with
    | none => simp [hstep] at h
    | some u =>
      simp only [hstep] at h
      exact Reachable.head a hstep (ih h)

theorem runCheck_sound {s0 : State} {sched : List Act} {P : State → Bool}
    (h : runCheck s0 sched P = true) : ∃ s, Reachable s0 s ∧ P s = true := by
  unfold runCheck at h
  cases hr : run s0 sched with
  | none => simp [hr] at h
  | some s =>
    simp only [hr] at h
    exact ⟨s, reachable_of_run hr, h⟩

/-! ## Claims settled on explicit runs -/

/-- C1 (room mutual exclusion) fails on the code: with one station and two
patients there is a reachable state, free of undefined behaviour, in which
patients 0 and 1 are both inside office 0 (both have passed
`sem_wait(nurseSems[0])` and neither has executed its departure post). -/
theorem C1_two_patients_inside_office :
    ∃ s, Reachable (initState 1 2) s ∧ s.fault = false ∧ inOffice s 0 0 = true ∧
      inOffice s 0 1 = true ∧ officeOccupancy s 0 = 2 := by
  have h : runCheck (initState 1 2) schedTwoInOffice (fun s =>
      !s.fault && inOffice s 0 0 && inOffice s 0 1 && officeOccupancy s 0 == 2) = true := by
    decide
  obtain ⟨s, hr, hp⟩ := runCheck_sound h
  simp only [Bool.and_eq_true, Bool.not_eq_true', beq_iff_eq] at hp
  exact ⟨s, hr, hp.1.1.1, hp.1.1.2, hp.1.2, hp.2⟩

theorem lt_length_of_getElem?_eq_some {α : Type} {l : List α} {i : Nat} {a : α}
    (h : l[i]? = some a) : i < l.length := by
  by_contra hlt
  rw [List.getElem?_eq_none (Nat.le_of_not_lt hlt)] at h
  cases h

theorem mem_allActs_of_step {s t : State} {a : Act} (h : step s a = some t) :
    a ∈ allActs s := by
  unfold step at h
  split at h
  · cases h
  · cases a with
    | patient id =>
      have hlt : id < s.patients.length := by
        cases hp : s.patients[id]? with
        | none => simp [patient, hp] at h
        | some pc => exact lt_length_of_getElem?_eq_some hp
      simp [allActs, hlt]
    | receptionist => simp [allActs]
    | draw office =>
      have hlt : (office : Int) < s.docNum := by
        simp only [receptionistDraw] at h
        split at h
        · split at h
          · omega
          · cases h
        · cases h
      simp [allActs, hlt]
    | nurse i =>
      have hlt : i < s.nurses.length := by
        cases hp : s.nurses[i]? with
        | none => simp [nurse, hp] at h
        | some n => exact lt_length_of_getElem?_eq_some hp
      simp [allActs, hlt]
    | doctor i =>
      have hlt : i < s.doctors.length := by
        cases hp : s.doctors[i]? with
        | none => simp [doctor, hp] at h
        | some n => exact lt_length_of_getElem?_eq_some hp
      simp [allActs, hlt]

theorem terminal_sound {s : State} (h : terminal s = true) (a : Act) : step s a = none := by
  cases hs : step s a with
  | none => rfl
  | some t =>
    have hmem := mem_allActs_of_step hs
    simp only [terminal, List.all_eq_true] at h
    have := h a hmem
    simp [hs] at this

/-- C4 (station tables sized to the station count) fails on the code: with
four stations the tables still have three slots, so doctor 3 executes
`sem_wait(officeSems[3])` outside `officeSems`, and a receptionist draw of
office 3 executes `officeQueues[3].push` outside `officeQueues`. -/
theorem C4_station_index_outside_tables :
    (∃ s, Reachable (initState 4 1) s ∧ s.fault = true ∧ s.officeSems.length = 3 ∧
      s.doctors[3]? = some { pc := .waitOffice1, docNum := 1, patient := 0 }) ∧
    (∃ s, Reachable (initState 4 1) s ∧ s.fault = true ∧ s.officeQueues.length = 3 ∧
      s.receptionist = { pc := .pushOfficeQueue, recepNum := 1, ranOffice := 3, patientId := 0 }) := by
  have h1 : runCheck (initState 4 1) schedDoctorThree (fun s =>
      s.fault && s.officeSems.length == 3 &&
        s.doctors[3]? == some { pc := .waitOffice1, docNum := 1, patient := 0 }) = true := by
    decide
  have h2 : runCheck (initState 4 1) schedDrawThree (fun s =>
      s.fault && s.officeQueues.length == 3 &&
        s.receptionist == { pc := .pushOfficeQueue, recepNum := 1, ranOffice := 3, patientId := 0 })
      = true := by
    decide
  obtain ⟨s1, hr1, hp1⟩ := runCheck_sound h1
  obtain ⟨s2, hr2, hp2⟩ := runCheck_sound h2
  simp only [Bool.and_eq_true, beq_iff_eq] at hp1 hp2
  exact ⟨⟨s1, hr1, hp1.1.1, hp1.1.2, hp1.2⟩, ⟨s2, hr2, hp2.1.1, hp2.1.2, hp2.2⟩⟩

/-- C5 (per-station quota) fails on the code: with two stations and two
patients, one routed to each station, a run reaches a state in which both
patients and the receptionist have returned, each nurse and each doctor has
completed exactly one cycle (its quota), yet every nurse is back at
`sem_wait(patientSems[i])` and every doctor at `sem_wait(officeSems[i])` with
the loop counter still 1, and no thread can ever move again. -/
theorem C5_nurse_and_doctor_stay_in_loop :
    ∃ s, Reachable (initState 2 2) s ∧ s.fault = false ∧
      s.patients = [.done, .done] ∧ s.receptionist.pc = .done ∧
      nurseReads s 0 = [0] ∧ nurseReads s 1 = [1] ∧
      doctorReads s 0 = [0] ∧ doctorReads s 1 = [1] ∧
      s.nurses = [some { pc := .waitPatient, nurseNum := 1 },
        some { pc := .waitPatient, nurseNum := 1 }] ∧
      s.doctors = [{ pc := .waitOffice1, docNum := 1, patient := 0 },
        { pc := .waitOffice1, docNum := 1, patient := 1 }] ∧
      ∀ a, step s a = none := by
  have h : runCheck (initState 2 2) schedSplit (fun s =>
      !s.fault && s.patients == [.done, .done] && s.receptionist.pc == .done &&
      nurseReads s 0 == [0] && nurseReads s 1 == [1] &&
      doctorReads s 0 == [0] && doctorReads s 1 == [1] &&
      s.nurses == [some { pc := .waitPatient, nurseNum := 1 },
        some { pc := .waitPatient, nurseNum := 1 }] &&
      s.doctors == [{ pc := .waitOffice1, docNum := 1, patient := 0 },
        { pc := .waitOffice1, docNum := 1, patient := 1 }] &&
      terminal s) = true := by
    decide
  obtain ⟨s, hr, hp⟩ := runCheck_sound h
  simp only [Bool.and_eq_true, Bool.not_eq_true', beq_iff_eq] at hp
  obtain ⟨⟨⟨⟨⟨⟨⟨⟨⟨h1, h2⟩, h3⟩, h4⟩, h5⟩, h6⟩, h7⟩, h8⟩, h9⟩, h10⟩ := hp
  exact ⟨s, hr, h1, h2, h3, h4, h5, h6, h7, h8, h9, terminal_sound h10⟩

/-- C6 (dispatcher completeness) fails on the code: with sixteen patients the
receptionist can have patient 15 at the desk and then executes
`assignedOffice[15] = ranOffice` on the fifteen-slot table `assignedOffice`. -/
theorem C6_assignment_outside_table :
    ∃ s, Reachable (initState 1 16) s ∧ s.fault = true ∧ s.assignedOffice.length = 15 ∧
      s.receptionist = { pc := .assign, recepNum := 16, ranOffice := 0, patientId := 15 } := by
  have h : runCheck (initState 1 16) schedPatientFifteen (fun s =>
      s.fault && s.assignedOffice.length == 15 &&
        s.receptionist == { pc := .assign, recepNum := 16, ranOffice := 0, patientId := 15 })
      = true := by
    decide
  obtain ⟨s, hr, hp⟩ := runCheck_sound h
  simp only [Bool.and_eq_true, beq_iff_eq] at hp
  exact ⟨s, hr, hp.1.1, hp.1.2, hp.2⟩

/-- C7 (station-queue consumption order) fails on the code: with one station
and two patients a run reaches a state where the receptionist has pushed 0
and then 1 onto `officeQueues[0]` (nothing popped yet) and the nurse has
already announced `front()` twice, both times patient 0; continued to the
state where every thread has returned, the nurse's reads are 0, 0 and the
doctor's are 0, 1: patient 1 is never observed by the nurse. -/
theorem C7_nurse_reads_same_head_twice :
    ∃ s t, Reachable (initState 1 2) s ∧ Reachable s t ∧
      s.officeQueues = [[0, 1], [], []] ∧ nurseReads s 0 = [0, 0] ∧
      t.fault = false ∧ (∀ a, step t a = none) ∧
      t.patients = [.done, .done] ∧ t.receptionist.pc = .done ∧
      t.nurses = [some { pc := .done, nurseNum := 0 }] ∧
      nurseReads t 0 = [0, 0] ∧ doctorReads t 0 = [0, 1] := by
  have h1 : runCheck (initState 1 2) schedTwoInOffice (fun s =>
      s.officeQueues == [[0, 1], [], []] && nurseReads s 0 == [0, 0] &&
      runCheck s (schedNurseRepeats.drop schedTwoInOffice.length) (fun t =>
        !t.fault && terminal t && t.patients == [.done, .done] && t.receptionist.pc == .done &&
        t.nurses == [some { pc := .done, nurseNum := 0 }] &&
        nurseReads t 0 == [0, 0] && doctorReads t 0 == [0, 1])) = true := by
    decide
  obtain ⟨s, hr, hp⟩ := runCheck_sound h1
  simp only [Bool.and_eq_true, beq_iff_eq] at hp
  obtain ⟨⟨hq, hn⟩, h2⟩ := hp
  obtain ⟨t, hrt, hpt⟩ := runCheck_sound h2
  simp only [Bool.and_eq_true, Bool.not_eq_true', beq_iff_eq] at hpt
  obtain ⟨⟨⟨⟨⟨⟨g1, g2⟩, g3⟩, g4⟩, g5⟩, g6⟩, g7⟩ := hpt
  exact ⟨s, t, hr, hrt, hq, hn, g1, terminal_sound g2, g3, g4, g5, g6, g7⟩

/-- C9 (hand-off to the specific arrival) fails on the code: with one station
and two patients, both registered for office 0, a run reaches a state where
the nurse has announced patient 0 once and posted `nurseSems[0]` once, the
patient that passed `sem_wait(nurseSems[0])` and entered office 0 is
patient 1, the doctor has read, "listened to" and popped patient 0, and the
patient that passed `sem_wait(assesmentSems[0])` and received the advice is
again patient 1; patient 0 is no longer in `officeQueues[0]` and still waits
at line 120. -/
theorem C9_other_patient_takes_the_token :
    ∃ s, Reachable (initState 1 2) s ∧ s.fault = false ∧
      s.assignedOffice[0]? = some 0 ∧ s.assignedOffice[1]? = some 0 ∧
      s.out = [.patientEntersWaitingRoom 0, .receptionistRegisters 0,
        .patientLeavesReceptionist 0, .patientEntersWaitingRoom 1, .receptionistRegisters 1,
        .patientLeavesReceptionist 1, .nurseTakes 0 0, .patientEntersOffice 1 0,
        .doctorListens 0 0, .patientReceivesAdvice 1 0] ∧
      nurseReads s 0 = [0] ∧ officeEntries s 0 = [1] ∧ doctorReads s 0 = [0] ∧
      s.officeQueues = [[1], [], []] ∧
      s.patients = [.waitNurse, .waitPrint5] := by
  have h : runCheck (initState 1 2) schedOvertake (fun s =>
      !s.fault && s.assignedOffice[0]? == some 0 && s.assignedOffice[1]? == some 0 &&
      s.out == [.patientEntersWaitingRoom 0, .receptionistRegisters 0,
        .patientLeavesReceptionist 0, .patientEntersWaitingRoom 1, .receptionistRegisters 1,
        .patientLeavesReceptionist 1, .nurseTakes 0 0, .patientEntersOffice 1 0,
        .doctorListens 0 0, .patientReceivesAdvice 1 0] &&
      nurseReads s 0 == [0] && officeEntries s 0 == [1] && doctorReads s 0 == [0] &&
      s.officeQueues == [[1], [], []] &&
      s.patients == [.waitNurse, .waitPrint5]) = true := by
    decide
  obtain ⟨s, hr, hp⟩ := runCheck_sound h
  simp only [Bool.and_eq_true, Bool.not_eq_true', beq_iff_eq] at hp
  obtain ⟨⟨⟨⟨⟨⟨⟨⟨g1, g2⟩, g3⟩, g4⟩, g5⟩, g6⟩, g7⟩, g8⟩, g9⟩ := hp
  exact ⟨s, hr, g1, g2, g3, g4, g5, g6, g7, g8, g9⟩

/-- C10 (`arrivalEntered` scoped per station) fails on the code: with two
stations, patient 0 assigned to office 0 and patient 1 to office 1, a run
reaches a state where only patient 1 has entered an office (office 1) and
posted `enterSem`, nurse 0 has consumed that post, posted `officeSems[0]` and
finished its cycle, and doctor 0 has printed "listens to symptoms from
patient 0" while patient 0 still waits at line 120 and nobody has entered
office 0; nurse 1 is still blocked in `sem_wait(enterSem)`. -/
theorem C10_entry_post_releases_other_nurse :
    ∃ s, Reachable (initState 2 2) s ∧ s.fault = false ∧
      s.assignedOffice[0]? = some 0 ∧ s.assignedOffice[1]? = some 1 ∧
      s.patients = [.waitNurse, .waitAssesment] ∧
      officeEntries s 0 = [] ∧ officeEntries s 1 = [1] ∧ doctorReads s 0 = [0] ∧
      s.enterSem = 0 ∧
      s.nurses = [some { pc := .waitPatient, nurseNum := 1 },
        some { pc := .waitEnter, nurseNum := 2 }] := by
  have h : runCheck (initState 2 2) schedStolenEntry (fun s =>
      !s.fault && s.assignedOffice[0]? == some 0 && s.assignedOffice[1]? == some 1 &&
      s.patients == [.waitNurse, .waitAssesment] &&
      officeEntries s 0 == [] && officeEntries s 1 == [1] && doctorReads s 0 == [0] &&
      s.enterSem == 0 &&
      s.nurses == [some { pc := .waitPatient, nurseNum := 1 },
        some { pc := .waitEnter, nurseNum := 2 }]) = true := by
    decide
  obtain ⟨s, hr, hp⟩ := runCheck_sound h
  simp only [Bool.and_eq_true, Bool.not_eq_true', beq_iff_eq] at hp
  obtain ⟨⟨⟨⟨⟨⟨⟨⟨g1, g2⟩, g3⟩, g4⟩, g5⟩, g6⟩, g7⟩, g8⟩, g9⟩ := hp
  exact ⟨s, hr, g1, g2, g3, g4, g5, g6, g7, g8, g9⟩

/-! ## Soundness of the exhaustive exploration -/

theorem mem_addNew {acc l : List State} {t : State} :
    t ∈ addNew acc l ↔ t ∈ acc ∨ t ∈ l := by
  induction l generalizing acc with
  | nil => simp [addNew]
  | cons x xs ih =>
    unfold addNew
    split
    · rename_i hc
      have hx : x ∈ acc := by simpa using hc
      rw [ih]
      constructor
      · rintro (h | h)
        · exact Or.inl h
        · exact Or.inr (List.mem_cons_of_mem _ h)
      · rintro (h | h)
        · exact Or.inl h
        · rcases List.mem_cons.mp h with h | h
          · exact Or.inl (h ▸ hx)
          · exact Or.inr h
    · rw [ih]
      simp only [List.mem_cons]
      tauto

theorem mem_succs_of_step {s t : State} {a : Act} (h : step s a = some t) : t ∈ succs s := by
  simp only [succs, List.mem_filterMap]
  exact ⟨a, mem_allActs_of_step h, h⟩

theorem mem_nextLayer {l : List State} {s t : State} {a : Act} (hs : s ∈ l)
    (h : step s a = some t) : t ∈ nextLayer l := by
  induction l with
  | nil => cases hs
  | cons x xs ih =>
    simp only [nextLayer, mem_addNew]
    rcases List.mem_cons.mp hs with hx | hx
    · subst hx
      exact Or.inr (mem_succs_of_step h)
    · exact Or.inl (ih hx)

theorem exploreAll_sound {P : State → Bool} {n : Nat} {l : List State}
    (h : exploreAll P n l = true) {s t : State} {sched : List Act} (hs : s ∈ l)
    (hrun : run s sched = some t) : P t = true ∧ sched.length < n := by
  induction n generalizing l s sched with
  | zero =>
    simp only [exploreAll, List.isEmpty_iff] at h
    subst h
    cases hs
  | succ n ih =>
    simp only [exploreAll, Bool.and_eq_true, List.all_eq_true] at h
    cases sched with
    | nil =>
      simp only [run, Option.some.injEq] at hrun
      subst hrun
      exact ⟨h.1 s hs, Nat.succ_pos _⟩
    | cons a rest =>
      simp only [run] at hrun
      cases hstep : step s a with
      | none => simp [hstep] at hrun
      | some u =>
        simp only [hstep] at hrun
        have := ih h.2 (mem_nextLayer hs hstep) hrun
        exact ⟨this.1, by simpa using Nat.succ_lt_succ this.2⟩

theorem exploreOneOne : exploreAll scenarioOneOneOk 62 [initState 1 1] = true := by
  decide!

/-- C8 (scenario with one station and one patient): every interleaving of the
receptionist, patient 0, doctor 0 and nurse 0 stays free of undefined
behaviour and has at most 61 steps; the lines written so far are always an
initial segment of the narration `narrationOneOne`; the office drawn by the
receptionist is 0 and no id is ever in the queue of another office; and
whenever no thread can move any more, every thread has returned, the
narration is complete and in exactly that order, `capacitySem` is back at 15
and patient 0 was assigned to station 0. -/
theorem C8_one_station_one_patient (sched : List Act) (s : State)
    (hrun : run (initState 1 1) sched = some s) :
    s.fault = false ∧ sched.length ≤ 61 ∧ (∃ rest, s.out ++ rest = narrationOneOne) ∧
      s.receptionist.ranOffice = 0 ∧ s.officeQueues.drop 1 = [[], []] ∧
      ((∀ a, step s a = none) →
        allReturned s = true ∧ s.out = narrationOneOne ∧ s.capacitySem = 15 ∧
          s.assignedOffice[0]? = some 0) := by
  obtain ⟨hok, hlen⟩ := exploreAll_sound exploreOneOne (List.mem_singleton.mpr rfl) hrun
  simp only [scenarioOneOneOk, Bool.and_eq_true, Bool.or_eq_true, Bool.not_eq_true',
    beq_iff_eq] at hok
  obtain ⟨⟨⟨⟨hf, hpre⟩, hran⟩, hqs⟩, hterm⟩ := hok
  refine ⟨hf, by omega, ⟨narrationOneOne.drop s.out.length, ?_⟩, hran, hqs, ?_⟩
  · have h := List.take_append_drop s.out.length narrationOneOne
    rw [← hpre] at h
    exact h
  · intro hstuck
    rcases hterm with hterm | hterm
    · have : terminal s = true := by
        simp only [terminal, List.all_eq_true]
        intro a _
        simp [hstuck a]
      rw [this] at hterm
      cases hterm
    · exact ⟨hterm.1.1.1, hterm.1.1.2, hterm.1.2, hterm.2⟩

/-- Witness for C8: the complete run `schedOneOne` ends in `finalOneOne`,
where no thread can move. -/
theorem C8_one_station_one_patient_witness :
    run (initState 1 1) schedOneOne = some finalOneOne ∧
      (finalOneOne.fault = false ∧ schedOneOne.length ≤ 61 ∧
        (∃ rest, finalOneOne.out ++ rest = narrationOneOne) ∧
        finalOneOne.receptionist.ranOffice = 0 ∧ finalOneOne.officeQueues.drop 1 = [[], []] ∧
        ((∀ a, step finalOneOne a = none) →
          allReturned finalOneOne = true ∧ finalOneOne.out = narrationOneOne ∧
            finalOneOne.capacitySem = 15 ∧ finalOneOne.assignedOffice[0]? = some 0)) :=
  ⟨by decide, C8_one_station_one_patient schedOneOne finalOneOne (by decide)⟩

/-! ## Waiting-room capacity up to undefined behaviour -/

theorem countP_set_add {α : Type} (p : α → Bool) (l : List α) (i : Nat) (a b : α)
    (h : l[i]? = some a) :
    (l.set i b).countP p + (if p a then 1 else 0) = l.countP p + (if p b then 1 else 0) := by
  induction l generalizing i with
  | nil => simp at h
  | cons x xs ih =>
    cases i with
    | zero =>
      simp only [List.getElem?_cons_zero, Option.some.injEq] at h
      subst h
      simp only [List.set_cons_zero, List.countP_cons]
      omega
    | succ j =>
      simp only [List.getElem?_cons_succ] at h
      have := ih j h
      simp only [List.set_cons_succ, List.countP_cons]
      omega

theorem countP_set_eq {α : Type} (p : α → Bool) {l : List α} {i : Nat} {a : α}
    (h : l[i]? = some a) (b : α) :
    (l.set i b).countP p = l.countP p + (if p b then 1 else 0) - (if p a then 1 else 0) := by
  have := countP_set_add p l i a b h
  omega

theorem countP_pos_of_getElem? {α : Type} (p : α → Bool) {l : List α} {i : Nat} {a : α}
    (h : l[i]? = some a) : (if p a then 1 else 0) ≤ l.countP p := by
  have := countP_set_add p l i a a h
  split
  · rename_i hpa
    exact List.countP_pos_iff.mpr ⟨a, List.getElem?_mem h, hpa⟩
  · exact Nat.zero_le _

theorem patient_capacity {s t : State} {id : Nat} (h : patient s id = some t) :
    t.capacitySem + occupancy t = s.capacitySem + occupancy s := by
  unfold patient at h
  cases hp : s.patients[id]? with
  | none => simp [hp] at h
  | some pc =>
    simp only [hp] at h
    have hge := countP_pos_of_getElem? PatientPc.admitted hp
    cases pc <;> simp only [] at h <;> (repeat' split at h) <;>
      simp only [Option.some.injEq, reduceCtorEq] at h <;> subst h <;>
      simp only [occupancy, State.gotoPatient, State.raise, State.print,
        countP_set_eq PatientPc.admitted hp, PatientPc.admitted] at hge ⊢ <;>
      simp only [↓reduceIte, Bool.false_eq_true] at hge ⊢ <;> omega

theorem nurse_desk {s t : State} {i : Nat} (h : nurse s i = some t) : t.desk = s.desk := by
  unfold nurse at h
  split at h
  · cases h
  · cases h
  · (repeat' split at h) <;>
      simp only [Option.some.injEq, reduceCtorEq] at h <;> subst h <;> rfl

theorem doctor_desk {s t : State} {i : Nat} (h : doctor s i = some t) : t.desk = s.desk := by
  unfold doctor at h
  split at h
  · cases h
  · (repeat' split at h) <;>
      simp only [Option.some.injEq, reduceCtorEq] at h <;> subst h <;> rfl

theorem receptionist_capacity {s t : State} (h : receptionist s = some t) :
    t.patients = s.patients ∧ t.capacitySem = s.capacitySem := by
  unfold receptionist at h
  cases hpc : s.receptionist.pc <;> simp only [hpc] at h <;> (repeat' split at h) <;>
    simp only [Option.some.injEq, reduceCtorEq] at h <;> subst h <;> exact ⟨rfl, rfl⟩

theorem receptionistDraw_capacity {s t : State} {k : Nat} (h : receptionistDraw s k = some t) :
    t.patients = s.patients ∧ t.capacitySem = s.capacitySem := by
  unfold receptionistDraw at h
  cases hpc : s.receptionist.pc <;> simp only [hpc] at h <;> (repeat' split at h) <;>
    simp only [Option.some.injEq, reduceCtorEq] at h
  subst h
  exact ⟨rfl, rfl⟩

theorem step_capacity {s t : State} {a : Act} (h : step s a = some t) :
    t.capacitySem + occupancy t = s.capacitySem + occupancy s := by
  unfold step at h
  split at h
  · cases h
  · cases a with
    | patient id => exact patient_capacity h
    | receptionist =>
      obtain ⟨h1, h2⟩ := receptionist_capacity h
      simp only [occupancy, h1, h2]
    | draw k =>
      obtain ⟨h1, h2⟩ := receptionistDraw_capacity h
      simp only [occupancy, h1, h2]
    | nurse i =>
      have := nurse_desk h
      have h1 : t.patients = s.patients := congrArg DeskView.patients this
      have h2 : t.capacitySem = s.capacitySem := congrArg DeskView.capacitySem this
      simp only [occupancy, h1, h2]
    | doctor i =>
      have := doctor_desk h
      have h1 : t.patients = s.patients := congrArg DeskView.patients this
      have h2 : t.capacitySem = s.capacitySem := congrArg DeskView.capacitySem this
      simp only [occupancy, h1, h2]

/-- Until a run executes undefined behaviour the accounting of `capacitySem`
is exact: in every state of the model reachable from the initial state, the
value of `capacitySem` plus the number of patient threads between their
`sem_wait(capacitySem)` and their `sem_post(capacitySem)` is 15. -/
theorem capacity_before_fault (docNum patientNum : Int) (s : State)
    (h : Reachable (initState docNum patientNum) s) :
    s.capacitySem + occupancy s = 15 := by
  induction h with
  | refl =>
    simp [initState, occupancy, capacity, List.countP_replicate, PatientPc.admitted]
  | tail a _ hstep ih => rw [step_capacity hstep]; exact ih

/-! ## Start-up -/

end DocSim
